import Mathlib

/-!
Shallow embedding of the request-validation and error-classification core of
the Product/SubscriptionPlan microservice (Go sources under internal/service,
internal/errors, internal/constants, internal/handler).

Modelling conventions:
* Go `float64` prices are modelled as `Rat` (the claims only compare against 0;
  NaN behaviour is out of scope).
* Go `int` is modelled as `Int`; Go `len(s)` (byte length) as `String.utf8ByteSize`.
* Go `error` values produced and inspected by this core are modelled by the
  inductive `GoError`; `errors.As` chain-walking follows each type's `Unwrap`
  method (only `DatabaseError` unwraps).
* The storage collaborator (repository interfaces) is modelled by records of
  response functions. Each response function receives the list of storage
  calls already issued during the current operation, so that two calls with the
  same argument (e.g. the existence check and the final re-fetch of Update) may
  answer differently, as a real stateful collaborator can. Each service
  operation returns its result together with the list of storage calls it made.
-/

/-- Errors of the service core: the three structured kinds declared in
internal/errors (ValidationError{Field,Message}, NotFoundError{Resource,ID},
DatabaseError{Operation,Err}) plus `generic` for plain `errors.New` values
such as the ones the repository layer returns. -/
inductive GoError where
  | validation (field message : String)
  | notFound (resource id : String)
  | database (operation : String) (cause : GoError)
  | generic (msg : String)
deriving DecidableEq, Repr

/-- internal/errors IsValidationError: `errors.As(err, &validationErr)`.
`errors.As` walks the Unwrap chain; only DatabaseError has Unwrap. -/
def IsValidationError : GoError → Bool
  | .validation _ _ => true
  | .database _ cause => IsValidationError cause
  | _ => false

/-- internal/errors IsNotFoundError: `errors.As(err, &notFoundErr)`. -/
def IsNotFoundError : GoError → Bool
  | .notFound _ _ => true
  | .database _ cause => IsNotFoundError cause
  | _ => false

/-- internal/errors IsDatabaseError: `errors.As(err, &dbErr)`. -/
def IsDatabaseError : GoError → Bool
  | .database _ _ => true
  | _ => false

/-- Decidable equality for Except results, so concrete runs of the modelled
operations can be checked by evaluation. -/
instance exceptDecEq {ε α : Type} [DecidableEq ε] [DecidableEq α] :
    DecidableEq (Except ε α) := fun x y =>
  match x, y with
  | .error a, .error b =>
    if h : a = b then .isTrue (by rw [h])
    else .isFalse (by intro hh; cases hh; exact h rfl)
  | .error _, .ok _ => .isFalse (by intro hh; cases hh)
  | .ok _, .error _ => .isFalse (by intro hh; cases hh)
  | .ok a, .ok b =>
    if h : a = b then .isTrue (by rw [h])
    else .isFalse (by intro hh; cases hh; exact h rfl)

/-- gRPC status codes used by the handler's error mapping. -/
inductive GrpcCode where
  | invalidArgument
  | codeNotFound
  | internal
deriving DecidableEq, Repr

/-- internal/handler mapServiceError (the current, type-predicate revision):
nil maps to nil; otherwise the first matching predicate among
IsValidationError / IsNotFoundError / IsDatabaseError selects the status,
with Internal as the defensive default. -/
def mapServiceError : Option GoError → Option GrpcCode
  | none => none
  | some e =>
    if IsValidationError e then some .invalidArgument
    else if IsNotFoundError e then some .codeNotFound
    else if IsDatabaseError e then some .internal
    else some .internal

/-- 128-bit identifier: 16 bytes, as produced by github.com/google/uuid. -/
structure UUID where
  bytes : List Nat
deriving DecidableEq, Repr

/-- uuid.Nil, the zero UUID (Go zero value of the uuid.UUID array type). -/
def uuidNil : UUID := ⟨List.replicate 16 0⟩

/-- Value of an ASCII hex digit, as google/uuid's xtob accepts it. -/
def hexVal (c : Char) : Option Nat :=
  if '0' ≤ c ∧ c ≤ '9' then some (c.toNat - '0'.toNat)
  else if 'a' ≤ c ∧ c ≤ 'f' then some (c.toNat - 'a'.toNat + 10)
  else if 'A' ≤ c ∧ c ≤ 'F' then some (c.toNat - 'A'.toNat + 10)
  else none

/-- google/uuid xtob: one byte from the two hex digits at positions i, i+1. -/
def hexPairAt (cs : List Char) (i : Nat) : Option Nat :=
  match cs.get? i, cs.get? (i + 1) with
  | some c1, some c2 =>
    match hexVal c1, hexVal c2 with
    | some h, some l => some (h * 16 + l)
    | _, _ => none
  | _, _ => none

/-- Byte offsets of the 16 hex pairs in the dashed UUID form
xxxxxxxx-xxxx-xxxx-xxxx-xxxxxxxxxxxx (google/uuid Parse). -/
def dashedPositions : List Nat :=
  [0, 2, 4, 6, 9, 11, 14, 16, 19, 21, 24, 26, 28, 30, 32, 34]

/-- Dashes must sit at offsets 8, 13, 18, 23 (google/uuid Parse). -/
def dashOK (cs : List Char) : Bool :=
  cs.get? 8 == some '-' && cs.get? 13 == some '-' &&
  cs.get? 18 == some '-' && cs.get? 23 == some '-'

/-- Parse the dashed 36-byte body of a UUID (google/uuid Parse, main path).
Positions beyond offset 35 are not examined, exactly as in the Go code. -/
def parseDashed (cs : List Char) : Option (List Nat) :=
  if dashOK cs then dashedPositions.mapM (hexPairAt cs) else none

/-- ASCII lower-casing, as strings.EqualFold behaves on ASCII input. -/
def asciiLower (c : Char) : Char :=
  if 'A' ≤ c ∧ c ≤ 'Z' then Char.ofNat (c.toNat + 32) else c

/-- github.com/google/uuid Parse. Accepts the canonical 36-byte dashed form,
the urn:uuid:-prefixed form (45 bytes, prefix compared case-insensitively),
the 38-byte form (Go strips only the first byte — it never checks that the
surrounding bytes are actual braces), and the 32-byte pure-hex form. -/
def uuidParse (s : String) : Option UUID :=
  let cs := s.data
  if cs.length = 36 then
    (parseDashed cs).map UUID.mk
  else if cs.length = 45 then
    if (cs.take 9).map asciiLower == "urn:uuid:".data.map asciiLower then
      (parseDashed (cs.drop 9)).map UUID.mk
    else none
  else if cs.length = 38 then
    (parseDashed (cs.drop 1)).map UUID.mk
  else if cs.length = 32 then
    ((List.range 16).mapM (fun i => hexPairAt cs (2 * i))).map UUID.mk
  else none

/-- The canonical dashed textual encoding: exactly 36 bytes, dashes and hex
digits in the canonical places. -/
def isCanonicalUUID (s : String) : Bool :=
  s.data.length = 36 && (parseDashed s.data).isSome

/-- Go len(s): byte length of the UTF-8 encoding. -/
def goLen (s : String) : Nat := s.utf8ByteSize

/-- internal/service/utils.go parseProductID. -/
def parseProductID (id : String) : Except GoError UUID :=
  if id = "" then .error (.validation "productId" "product ID is required")
  else
    match uuidParse id with
    | none => .error (.validation "productId" "invalid product ID format")
    | some u => .ok u

/-- internal/service/subscription_service.go parsePlanID. -/
def parsePlanID (id : String) : Except GoError UUID :=
  if id = "" then .error (.validation "id" "subscription plan ID is required")
  else
    match uuidParse id with
    | none => .error (.validation "id" "invalid subscription plan ID format")
    | some u => .ok u

/-- internal/service/product_service.go validateProductInput. -/
def validateProductInput (name : String) (price : Rat) (productType : String) :
    Option GoError :=
  if name = "" then some (.validation "name" "product name is required")
  else if goLen name > 255 then
    some (.validation "name" "product name must be less than 255 characters")
  else if price < 0 then some (.validation "price" "price cannot be negative")
  else if productType = "" then
    some (.validation "productType" "product type is required")
  else none

/-- internal/service/subscription_service.go validateSubscriptionInput. -/
def validateSubscriptionInput (planName : String) (duration : Int) (price : Rat) :
    Option GoError :=
  if planName = "" then some (.validation "planName" "plan name is required")
  else if goLen planName > 255 then
    some (.validation "planName" "plan name must be less than 255 characters")
  else if duration ≤ 0 then
    some (.validation "duration" "duration must be positive")
  else if duration > 3650 then
    some (.validation "duration" "duration cannot exceed 3650 days")
  else if price < 0 then some (.validation "price" "price cannot be negative")
  else none

/-- internal/constants DefaultPage. -/
def DefaultPage : Int := 1
/-- internal/constants DefaultPageSize. -/
def DefaultPageSize : Int := 10
/-- internal/constants MaxPageSize. -/
def MaxPageSize : Int := 100
/-- internal/constants MinPageSize. -/
def MinPageSize : Int := 1

/-- internal/service/product_service.go normalizePage. -/
def normalizePage (page : Int) : Int :=
  if page < MinPageSize then DefaultPage else page

/-- internal/service/product_service.go normalizePageSize. -/
def normalizePageSize (pageSize : Int) : Int :=
  if pageSize < MinPageSize then DefaultPageSize
  else if pageSize > MaxPageSize then MaxPageSize
  else pageSize

/-- internal/models Product (the fields the service core reads or writes;
timestamps and the soft-delete marker are storage-assigned and unused here). -/
structure Product where
  id : UUID
  name : String
  description : String
  price : Rat
  productType : String
deriving DecidableEq, Repr

/-- internal/models SubscriptionPlan (service-relevant fields). -/
structure SubscriptionPlan where
  id : UUID
  productID : UUID
  planName : String
  duration : Int
  price : Rat
deriving DecidableEq, Repr

/-- One call issued to the storage collaborator. -/
inductive StorageCall where
  | productGetByID (id : UUID)
  | productList (productType : String) (page pageSize : Int)
  | productUpdate (product : Product)
  | subGetByID (id : UUID)
  | subCreate (plan : SubscriptionPlan)
  | subUpdate (plan : SubscriptionPlan)
  | subListByProductID (productID : UUID)
deriving DecidableEq, Repr

/-- repository.ProductRepository, as a record of response functions. Each
function also receives the storage calls already issued in the current
operation, so responses may vary between successive calls. -/
structure ProductRepo where
  getByID : List StorageCall → UUID → Except GoError Product
  update : List StorageCall → Product → Option GoError
  list : List StorageCall → String → Int → Int → Except GoError (List Product × Int)

/-- repository.SubscriptionRepository, as a record of response functions. -/
structure SubscriptionRepo where
  create : List StorageCall → SubscriptionPlan → Option GoError
  getByID : List StorageCall → UUID → Except GoError SubscriptionPlan
  update : List StorageCall → SubscriptionPlan → Option GoError
  listByProductID : List StorageCall → UUID → Except GoError (List SubscriptionPlan)

/-- productService.GetProduct: parse id, fetch, map any fetch failure to
NotFoundError("Product", id). -/
def GetProduct (repo : ProductRepo) (id : String) :
    Except GoError Product × List StorageCall :=
  match parseProductID id with
  | .error e => (.error e, [])
  | .ok productID =>
    match repo.getByID [] productID with
    | .error _ => (.error (.notFound "Product" id), [.productGetByID productID])
    | .ok product => (.ok product, [.productGetByID productID])

/-- productService.UpdateProduct: parse id, existence check (NotFoundError on
failure), validate, storage update (DatabaseError wrap on failure), then
`return s.repo.GetByID(productID)` — the re-fetch result, error included, is
returned as-is. -/
def UpdateProduct (repo : ProductRepo) (id name description : String)
    (price : Rat) (productType : String) :
    Except GoError Product × List StorageCall :=
  match parseProductID id with
  | .error e => (.error e, [])
  | .ok productID =>
    match repo.getByID [] productID with
    | .error _ => (.error (.notFound "Product" id), [.productGetByID productID])
    | .ok _ =>
      match validateProductInput name price productType with
      | some e => (.error e, [.productGetByID productID])
      | none =>
        let product : Product := ⟨productID, name, description, price, productType⟩
        let l2 := [StorageCall.productGetByID productID, StorageCall.productUpdate product]
        match repo.update [StorageCall.productGetByID productID] product with
        | some e => (.error (.database "update product" e), l2)
        | none =>
          (repo.getByID l2 productID, l2 ++ [StorageCall.productGetByID productID])

/-- productService.ListProducts: normalize pagination, delegate to storage,
wrap a storage failure as DatabaseError("list products", cause). -/
def ListProducts (repo : ProductRepo) (productType : String) (page pageSize : Int) :
    Except GoError (List Product × Int) × List StorageCall :=
  let p := normalizePage page
  let ps := normalizePageSize pageSize
  match repo.list [] productType p ps with
  | .error e => (.error (.database "list products" e), [.productList productType p ps])
  | .ok r => (.ok r, [.productList productType p ps])

/-- subscriptionService.CreateSubscriptionPlan: validate, parse the product
id, resolve the product (any failure becomes NotFoundError("Product",
productID)), then create (DatabaseError wrap on failure). -/
def CreateSubscriptionPlan (subRepo : SubscriptionRepo) (productRepo : ProductRepo)
    (productID planName : String) (duration : Int) (price : Rat) :
    Except GoError SubscriptionPlan × List StorageCall :=
  match validateSubscriptionInput planName duration price with
  | some e => (.error e, [])
  | none =>
    match parseProductID productID with
    | .error e => (.error e, [])
    | .ok prodID =>
      match productRepo.getByID [] prodID with
      | .error _ => (.error (.notFound "Product" productID), [.productGetByID prodID])
      | .ok _ =>
        let plan : SubscriptionPlan := ⟨uuidNil, prodID, planName, duration, price⟩
        let l := [StorageCall.productGetByID prodID, StorageCall.subCreate plan]
        match subRepo.create [StorageCall.productGetByID prodID] plan with
        | some e => (.error (.database "create subscription plan" e), l)
        | none => (.ok plan, l)

/-- subscriptionService.GetSubscriptionPlan: parse id, fetch, map any fetch
failure to NotFoundError("SubscriptionPlan", id). -/
def GetSubscriptionPlan (repo : SubscriptionRepo) (id : String) :
    Except GoError SubscriptionPlan × List StorageCall :=
  match parsePlanID id with
  | .error e => (.error e, [])
  | .ok planID =>
    match repo.getByID [] planID with
    | .error _ => (.error (.notFound "SubscriptionPlan" id), [.subGetByID planID])
    | .ok plan => (.ok plan, [.subGetByID planID])

/-- subscriptionService.UpdateSubscriptionPlan: parse plan id, existence
check, validate, parse product id, resolve product, storage update
(DatabaseError wrap), then `return s.repo.GetByID(planID)` — the re-fetch
result, error included, is returned as-is. -/
def UpdateSubscriptionPlan (subRepo : SubscriptionRepo) (productRepo : ProductRepo)
    (id productID planName : String) (duration : Int) (price : Rat) :
    Except GoError SubscriptionPlan × List StorageCall :=
  match parsePlanID id with
  | .error e => (.error e, [])
  | .ok planID =>
    match subRepo.getByID [] planID with
    | .error _ => (.error (.notFound "SubscriptionPlan" id), [.subGetByID planID])
    | .ok _ =>
      match validateSubscriptionInput planName duration price with
      | some e => (.error e, [.subGetByID planID])
      | none =>
        match parseProductID productID with
        | .error e => (.error e, [.subGetByID planID])
        | .ok prodID =>
          match productRepo.getByID [StorageCall.subGetByID planID] prodID with
          | .error _ =>
            (.error (.notFound "Product" productID),
             [.subGetByID planID, .productGetByID prodID])
          | .ok _ =>
            let plan : SubscriptionPlan := ⟨planID, prodID, planName, duration, price⟩
            let l3 := [StorageCall.subGetByID planID, StorageCall.productGetByID prodID,
                       StorageCall.subUpdate plan]
            match subRepo.update [StorageCall.subGetByID planID,
                                  StorageCall.productGetByID prodID] plan with
            | some e => (.error (.database "update subscription plan" e), l3)
            | none =>
              (subRepo.getByID l3 planID, l3 ++ [StorageCall.subGetByID planID])

/-- subscriptionService.ListSubscriptionPlans: parse the product id, then
delegate directly to subscription storage (product storage is never
consulted); a storage failure is wrapped as DatabaseError. -/
def ListSubscriptionPlans (subRepo : SubscriptionRepo) (productID : String) :
    Except GoError (List SubscriptionPlan) × List StorageCall :=
  match parseProductID productID with
  | .error e => (.error e, [])
  | .ok prodID =>
    match subRepo.listByProductID [] prodID with
    | .error e =>
      (.error (.database "list subscription plans" e), [.subListByProductID prodID])
    | .ok plans => (.ok plans, [.subListByProductID prodID])

/-- A product repository whose lookup succeeds on the first storage call of an
operation and fails on any later call — the situation where the connection
drops between Update's existence check and its final re-fetch. -/
def flakyProductRepo : ProductRepo :=
  ⟨fun hist _ =>
      if hist.isEmpty then .ok ⟨uuidNil, "Widget", "d", 10, "digital"⟩
      else .error (.generic "connection failed"),
   fun _ _ => none,
   fun _ _ _ _ => .ok ([], 0)⟩

/-! ## Helper lemmas -/

/-- Every error produced by validateProductInput is a ValidationError. -/
theorem validation_of_validateProductInput (name : String) (price : Rat)
    (productType : String) (e : GoError)
    (h : validateProductInput name price productType = some e) :
    IsValidationError e = true := by
  unfold validateProductInput at h
  repeat' split at h
  all_goals (try cases h)
  all_goals rfl

/-- Every error produced by validateSubscriptionInput is a ValidationError. -/
theorem validation_of_validateSubscriptionInput (planName : String) (duration : Int)
    (price : Rat) (e : GoError)
    (h : validateSubscriptionInput planName duration price = some e) :
    IsValidationError e = true := by
  unfold validateSubscriptionInput at h
  repeat' split at h
  all_goals (try cases h)
  all_goals rfl

/-- Every error produced by parseProductID is a ValidationError. -/
theorem validation_of_parseProductID (id : String) (e : GoError)
    (h : parseProductID id = .error e) : IsValidationError e = true := by
  unfold parseProductID at h
  repeat' split at h
  all_goals (try cases h)
  all_goals rfl

/-- Every error produced by parsePlanID is a ValidationError. -/
theorem validation_of_parsePlanID (id : String) (e : GoError)
    (h : parsePlanID id = .error e) : IsValidationError e = true := by
  unfold parsePlanID at h
  repeat' split at h
  all_goals (try cases h)
  all_goals rfl

/-- parseProductID succeeds exactly on the strings uuidParse accepts. -/
theorem parseProductID_ok_iff (id : String) (u : UUID) :
    parseProductID id = .ok u ↔ uuidParse id = some u := by
  unfold parseProductID
  constructor
  · intro h
    split at h
    · cases h
    · cases hu : uuidParse id with
      | none => rw [hu] at h; cases h
      | some v => rw [hu] at h; simp_all
  · intro h
    have hnone : uuidParse "" = none := by decide
    have hne : id ≠ "" := by
      intro hh; rw [hh, hnone] at h; cases h
    simp [hne, h]

/-- parsePlanID succeeds exactly on the strings uuidParse accepts. -/
theorem parsePlanID_ok_iff (id : String) (u : UUID) :
    parsePlanID id = .ok u ↔ uuidParse id = some u := by
  unfold parsePlanID
  constructor
  · intro h
    split at h
    · cases h
    · cases hu : uuidParse id with
      | none => rw [hu] at h; cases h
      | some v => rw [hu] at h; simp_all
  · intro h
    have hnone : uuidParse "" = none := by decide
    have hne : id ≠ "" := by
      intro hh; rw [hh, hnone] at h; cases h
    simp [hne, h]

/-! ## Claim C2 — error-to-status mapping -/

/-- Claim C2, counterexample: the three predicates are not mutually exclusive
for every error value — a DatabaseError wrapping a ValidationError satisfies
both IsValidationError and IsDatabaseError (errors.As walks the Unwrap chain),
and mapServiceError sends it to invalid-argument, not internal, so the mapping
is order-dependent on such values. -/
theorem mapServiceError_not_mutually_exclusive :
    IsValidationError (GoError.database "op" (.validation "f" "m")) = true
    ∧ IsDatabaseError (GoError.database "op" (.validation "f" "m")) = true
    ∧ mapServiceError (some (GoError.database "op" (.validation "f" "m")))
        = some GrpcCode.invalidArgument
    ∧ some GrpcCode.invalidArgument ≠ some GrpcCode.internal := by decide

/-- Claim C2 (amended): mapServiceError maps nil to nil, ValidationError to
invalid-argument, NotFoundError to not-found, DatabaseError to internal
provided its wrapped cause is not itself classified as a ValidationError or
NotFoundError (which holds for every DatabaseError the service layer builds,
since it wraps only raw storage errors), and any other error to internal;
classification uses only the typed predicates, and on such values the three
predicates are mutually exclusive. -/
theorem mapServiceError_table (f m r i op s : String) (c : GoError)
    (hv : IsValidationError c = false) (hn : IsNotFoundError c = false) :
    mapServiceError none = none
    ∧ mapServiceError (some (.validation f m)) = some .invalidArgument
    ∧ mapServiceError (some (.notFound r i)) = some .codeNotFound
    ∧ mapServiceError (some (.database op c)) = some .internal
    ∧ mapServiceError (some (.generic s)) = some .internal
    ∧ IsNotFoundError (.validation f m) = false
    ∧ IsDatabaseError (.validation f m) = false
    ∧ IsValidationError (.notFound r i) = false
    ∧ IsDatabaseError (.notFound r i) = false
    ∧ IsValidationError (.generic s) = false
    ∧ IsNotFoundError (.generic s) = false
    ∧ IsDatabaseError (.generic s) = false
    ∧ IsValidationError (.database op c) = false
    ∧ IsNotFoundError (.database op c) = false := by
  refine ⟨rfl, rfl, rfl, ?_, rfl, rfl, rfl, rfl, rfl, rfl, rfl, rfl, ?_, ?_⟩
  · simp [mapServiceError, IsValidationError, IsNotFoundError, IsDatabaseError, hv, hn]
  · simp [IsValidationError, hv]
  · simp [IsNotFoundError, hn]

/-- Witness for mapServiceError_table at a concrete wrapped cause. -/
theorem mapServiceError_table_witness :
    mapServiceError (some (.database "create product" (.generic "disk full")))
      = some .internal
    ∧ mapServiceError (some (.validation "name" "product name is required"))
      = some .invalidArgument :=
  ⟨(mapServiceError_table "f" "m" "r" "i" "create product" "s" (.generic "disk full")
      (by decide) (by decide)).2.2.2.1,
   (mapServiceError_table "name" "product name is required" "r" "i" "op" "s"
      (.generic "disk full") (by decide) (by decide)).2.1⟩

/-! ## Claim C3 — validateProductInput rule order -/

/-- Claim C3: validateProductInput checks its rules in the fixed order
name-empty, name-too-long, price-negative, type-empty, and returns the error
of the first failing rule (nil when none fails); in particular an empty or
over-long name with non-negative price and non-empty type always yields the
ValidationError on field "name". -/
theorem validateProductInput_first_failing_rule
    (name : String) (price : Rat) (productType : String) :
    (name = "" → validateProductInput name price productType
        = some (.validation "name" "product name is required"))
    ∧ (name ≠ "" → 255 < goLen name → validateProductInput name price productType
        = some (.validation "name" "product name must be less than 255 characters"))
    ∧ (name ≠ "" → goLen name ≤ 255 → price < 0 →
        validateProductInput name price productType
          = some (.validation "price" "price cannot be negative"))
    ∧ (name ≠ "" → goLen name ≤ 255 → 0 ≤ price → productType = "" →
        validateProductInput name price productType
          = some (.validation "productType" "product type is required"))
    ∧ (name ≠ "" → goLen name ≤ 255 → 0 ≤ price → productType ≠ "" →
        validateProductInput name price productType = none)
    ∧ ((name = "" ∨ 256 ≤ goLen name) → 0 ≤ price → productType ≠ "" →
        ∃ msg, validateProductInput name price productType
          = some (.validation "name" msg)) := by
  refine ⟨?_, ?_, ?_, ?_, ?_, ?_⟩
  · intro h; simp [validateProductInput, h]
  · intro h1 h2; simp [validateProductInput, h1, h2]
  · intro h1 h2 h3; simp [validateProductInput, h1, Nat.not_lt.mpr h2, h3]
  · intro h1 h2 h3 h4
    simp [validateProductInput, h1, Nat.not_lt.mpr h2, not_lt.mpr h3, h4]
  · intro h1 h2 h3 h4
    simp [validateProductInput, h1, Nat.not_lt.mpr h2, not_lt.mpr h3, h4]
  · intro h1 h2 h3
    rcases h1 with h1 | h1
    · exact ⟨"product name is required", by simp [validateProductInput, h1]⟩
    · have hne : name ≠ "" := by
        intro hh; rw [hh] at h1; exact absurd h1 (by decide)
      have hlt : 255 < goLen name := by omega
      exact ⟨"product name must be less than 255 characters",
        by simp [validateProductInput, hne, hlt]⟩

/-- Witness for validateProductInput_first_failing_rule on concrete inputs. -/
theorem validateProductInput_first_failing_rule_witness :
    validateProductInput "" 5 "digital" = some (.validation "name" "product name is required")
    ∧ validateProductInput "Widget" (-1) "digital"
        = some (.validation "price" "price cannot be negative")
    ∧ validateProductInput "Widget" 5 "digital" = none :=
  ⟨(validateProductInput_first_failing_rule "" 5 "digital").1 rfl,
   (validateProductInput_first_failing_rule "Widget" (-1) "digital").2.2.1
     (by decide) (by decide) (by decide),
   (validateProductInput_first_failing_rule "Widget" 5 "digital").2.2.2.2.1
     (by decide) (by decide) (by decide) (by decide)⟩

/-! ## Claim C4 — duration bounds of validateSubscriptionInput -/

/-- Claim C4: with a valid planName and price, validateSubscriptionInput
returns the "must be positive" ValidationError on field "duration" for every
duration ≤ 0, the "cannot exceed 3650 days" ValidationError for every
duration > 3650, and passes every duration in [1, 3650]. -/
theorem validateSubscriptionInput_duration_bounds
    (planName : String) (duration : Int) (price : Rat)
    (hname : planName ≠ "") (hlen : goLen planName ≤ 255) (hprice : 0 ≤ price) :
    (duration ≤ 0 → validateSubscriptionInput planName duration price
        = some (.validation "duration" "duration must be positive"))
    ∧ (3650 < duration → validateSubscriptionInput planName duration price
        = some (.validation "duration" "duration cannot exceed 3650 days"))
    ∧ (1 ≤ duration → duration ≤ 3650 →
        validateSubscriptionInput planName duration price = none) := by
  refine ⟨?_, ?_, ?_⟩
  · intro h
    simp [validateSubscriptionInput, hname, Nat.not_lt.mpr hlen, h]
  · intro h
    have h0 : ¬duration ≤ 0 := by omega
    simp [validateSubscriptionInput, hname, Nat.not_lt.mpr hlen, h0, h]
  · intro h1 h2
    have h0 : ¬duration ≤ 0 := by omega
    have h3 : ¬3650 < duration := by omega
    simp [validateSubscriptionInput, hname, Nat.not_lt.mpr hlen, h0, h3,
      not_lt.mpr hprice]

/-- Witness for validateSubscriptionInput_duration_bounds at the boundary
durations 0, 3651, 1 and 3650. -/
theorem validateSubscriptionInput_duration_bounds_witness :
    validateSubscriptionInput "Monthly" 0 10
      = some (.validation "duration" "duration must be positive")
    ∧ validateSubscriptionInput "Monthly" 3651 10
      = some (.validation "duration" "duration cannot exceed 3650 days")
    ∧ validateSubscriptionInput "Monthly" 1 10 = none
    ∧ validateSubscriptionInput "Monthly" 3650 10 = none :=
  ⟨(validateSubscriptionInput_duration_bounds "Monthly" 0 10
      (by decide) (by decide) (by decide)).1 (by decide),
   (validateSubscriptionInput_duration_bounds "Monthly" 3651 10
      (by decide) (by decide) (by decide)).2.1 (by decide),
   (validateSubscriptionInput_duration_bounds "Monthly" 1 10
      (by decide) (by decide) (by decide)).2.2 (by decide) (by decide),
   (validateSubscriptionInput_duration_bounds "Monthly" 3650 10
      (by decide) (by decide) (by decide)).2.2 (by decide) (by decide)⟩

/-! ## Claim C5 — negative price -/

/-- Claim C5, counterexample: a negative price does not win over earlier
failing rules — with an empty name (resp. planName) and price −1, both
validators report the name field, not the price field, so the promised
"ValidationError on field price regardless of the other fields' validity"
fails. -/
theorem negative_price_not_field_price_counterexample :
    validateProductInput "" (-1) "digital"
      = some (.validation "name" "product name is required")
    ∧ ¬(∃ msg, validateProductInput "" (-1) "digital"
        = some (.validation "price" msg))
    ∧ validateSubscriptionInput "" 30 (-1)
      = some (.validation "planName" "plan name is required")
    ∧ ¬(∃ msg, validateSubscriptionInput "" 30 (-1)
        = some (.validation "price" msg)) := by
  refine ⟨by decide, ?_, by decide, ?_⟩
  · rintro ⟨msg, h⟩
    rw [show validateProductInput "" (-1) "digital"
        = some (.validation "name" "product name is required") from by decide] at h
    simp at h
  · rintro ⟨msg, h⟩
    rw [show validateSubscriptionInput "" 30 (-1)
        = some (.validation "planName" "plan name is required") from by decide] at h
    simp at h

/-- Claim C5 (amended): for every negative price, validateProductInput returns
the ValidationError on field "price" whenever the earlier-checked name rules
pass (for any productType, valid or not, since productType is checked after
price), and validateSubscriptionInput returns it whenever the earlier-checked
planName and duration rules pass; an earlier failing rule wins otherwise. -/
theorem negative_price_yields_price_error
    (name productType planName : String) (duration : Int) (price : Rat)
    (hpr : price < 0) :
    (name ≠ "" → goLen name ≤ 255 →
        validateProductInput name price productType
          = some (.validation "price" "price cannot be negative"))
    ∧ (planName ≠ "" → goLen planName ≤ 255 → 1 ≤ duration → duration ≤ 3650 →
        validateSubscriptionInput planName duration price
          = some (.validation "price" "price cannot be negative")) := by
  constructor
  · intro h1 h2
    simp [validateProductInput, h1, Nat.not_lt.mpr h2, hpr]
  · intro h1 h2 h3 h4
    have h0 : ¬duration ≤ 0 := by omega
    have h5 : ¬3650 < duration := by omega
    simp [validateSubscriptionInput, h1, Nat.not_lt.mpr h2, h0, h5, hpr]

/-- Witness for negative_price_yields_price_error; note the product case uses
an empty (invalid) productType and still reports the price field. -/
theorem negative_price_yields_price_error_witness :
    validateProductInput "Widget" (-1) ""
      = some (.validation "price" "price cannot be negative")
    ∧ validateSubscriptionInput "Monthly" 30 (-1)
      = some (.validation "price" "price cannot be negative") :=
  ⟨(negative_price_yields_price_error "Widget" "" "Monthly" 30 (-1)
      (by decide)).1 (by decide) (by decide),
   (negative_price_yields_price_error "Widget" "" "Monthly" 30 (-1)
      (by decide)).2 (by decide) (by decide) (by decide) (by decide)⟩

/-! ## Claim C6 — identifier parsing -/

/-- Claim C6, counterexample: the identifier parser is not one implementation
with field "id" — product ids go through parseProductID, which reports field
"productId" (not "id") and a product-specific message, while plan ids go
through the separate parsePlanID; moreover a non-empty, non-canonical string
(the 38-byte braced variant) is accepted by the underlying uuid.Parse, so it
does not produce an invalid-format ValidationError. -/
theorem identifier_parser_counterexample :
    parseProductID "" = .error (.validation "productId" "product ID is required")
    ∧ "productId" ≠ "id"
    ∧ parseProductID "" ≠ parsePlanID ""
    ∧ "\x7b6ba7b810-9dad-11d1-80b4-00c04fd430c8\x7d" ≠ ""
    ∧ (uuidParse "\x7b6ba7b810-9dad-11d1-80b4-00c04fd430c8\x7d").isSome = true
    ∧ isCanonicalUUID "\x7b6ba7b810-9dad-11d1-80b4-00c04fd430c8\x7d" = false
    ∧ (∀ msg, parseProductID "\x7b6ba7b810-9dad-11d1-80b4-00c04fd430c8\x7d"
        ≠ .error (.validation "productId" msg)) := by
  refine ⟨by decide, by decide, by decide, by decide, by decide, by decide, ?_⟩
  intro msg h
  rw [show parseProductID "\x7b6ba7b810-9dad-11d1-80b4-00c04fd430c8\x7d"
      = .ok ⟨[107, 167, 184, 16, 157, 173, 17, 209, 128, 180, 0, 192, 79, 212, 48, 200]⟩
    from by decide] at h
  cases h

/-- Claim C6 (amended): there are two structurally identical parsers —
parseProductID (used for Product ids and for the ProductID reference carried
by subscription requests, reporting field "productId") and parsePlanID (used
for SubscriptionPlan ids, reporting field "id"). Each is pure, maps the empty
string to a required-style ValidationError on its field, maps every non-empty
string rejected by uuid.Parse to an invalid-format ValidationError on its
field, and succeeds without error on every string uuid.Parse accepts — in
particular on every canonical UUID encoding. -/
theorem identifier_parsers_spec (s : String) (u : UUID) :
    parseProductID "" = .error (.validation "productId" "product ID is required")
    ∧ parsePlanID "" = .error (.validation "id" "subscription plan ID is required")
    ∧ (s ≠ "" → uuidParse s = none →
        parseProductID s = .error (.validation "productId" "invalid product ID format")
        ∧ parsePlanID s = .error (.validation "id" "invalid subscription plan ID format"))
    ∧ (uuidParse s = some u → parseProductID s = .ok u ∧ parsePlanID s = .ok u)
    ∧ (isCanonicalUUID s = true → (uuidParse s).isSome = true) := by
  refine ⟨by decide, by decide, ?_, ?_, ?_⟩
  · intro h1 h2
    constructor <;> simp [parseProductID, parsePlanID, h1, h2]
  · intro h
    exact ⟨(parseProductID_ok_iff s u).mpr h, (parsePlanID_ok_iff s u).mpr h⟩
  · intro h
    unfold isCanonicalUUID at h
    rw [Bool.and_eq_true] at h
    obtain ⟨h1, h2⟩ := h
    rw [decide_eq_true_iff] at h1
    simp [uuidParse, h1, Option.isSome_map]
    exact h2

/-- Witness for identifier_parsers_spec on a concrete canonical UUID. -/
theorem identifier_parsers_spec_witness :
    parseProductID "00000000-0000-0000-0000-000000000000" = .ok uuidNil
    ∧ parsePlanID "00000000-0000-0000-0000-000000000000" = .ok uuidNil :=
  (identifier_parsers_spec "00000000-0000-0000-0000-000000000000" uuidNil).2.2.2.1
    (by decide)

/-! ## Claim C7 — ListProducts pagination normalization -/

/-- Claim C7: ListProducts normalizes its pagination arguments before calling
storage — page below 1 becomes 1, pageSize below 1 becomes 10, pageSize above
100 becomes 100, in-range values are unchanged; ListProducts(t,0,0) behaves
exactly as ListProducts(t,1,10), ListProducts(t,p,1000) as
ListProducts(t,p,100), and the values handed to storage.List always satisfy
page ≥ 1 and 1 ≤ pageSize ≤ 100. -/
theorem ListProducts_normalizes_pagination
    (repo : ProductRepo) (t : String) (p ps : Int) :
    (p < 1 → normalizePage p = 1)
    ∧ (1 ≤ p → normalizePage p = p)
    ∧ (ps < 1 → normalizePageSize ps = 10)
    ∧ (100 < ps → normalizePageSize ps = 100)
    ∧ (1 ≤ ps → ps ≤ 100 → normalizePageSize ps = ps)
    ∧ ListProducts repo t 0 0 = ListProducts repo t 1 10
    ∧ ListProducts repo t p 1000 = ListProducts repo t p 100
    ∧ 1 ≤ normalizePage p
    ∧ 1 ≤ normalizePageSize ps ∧ normalizePageSize ps ≤ 100
    ∧ (ListProducts repo t p ps).snd
        = [StorageCall.productList t (normalizePage p) (normalizePageSize ps)] := by
  refine ⟨?_, ?_, ?_, ?_, ?_, ?_, ?_, ?_, ?_, ?_, ?_⟩
  · intro h; simp [normalizePage, MinPageSize, DefaultPage, h]
  · intro h
    have hh : ¬p < MinPageSize := by simp [MinPageSize]; omega
    simp [normalizePage, hh]
  · intro h
    unfold normalizePageSize MinPageSize DefaultPageSize MaxPageSize
    split <;> omega
  · intro h
    unfold normalizePageSize MinPageSize DefaultPageSize MaxPageSize
    split <;> omega
  · intro ha hb
    unfold normalizePageSize MinPageSize DefaultPageSize MaxPageSize
    split <;> (try split) <;> omega
  · rfl
  · rfl
  · unfold normalizePage MinPageSize DefaultPage
    split <;> omega
  · unfold normalizePageSize MinPageSize DefaultPageSize MaxPageSize
    split
    · omega
    · split <;> omega
  · unfold normalizePageSize MinPageSize DefaultPageSize MaxPageSize
    split
    · omega
    · split <;> omega
  · cases h : repo.list [] t (normalizePage p) (normalizePageSize ps) with
    | error e => simp [ListProducts, h]
    | ok r => simp [ListProducts, h]

/-- Witness for ListProducts_normalizes_pagination on a concrete repository
and in-range arguments. -/
theorem ListProducts_normalizes_pagination_witness :
    normalizePage 2 = 2
    ∧ normalizePageSize 50 = 50
    ∧ normalizePage 0 = 1
    ∧ normalizePageSize 0 = 10
    ∧ normalizePageSize 1000 = 100 :=
  ⟨(ListProducts_normalizes_pagination ⟨fun _ _ => .error (.generic "db"),
      fun _ _ => none, fun _ _ _ _ => .ok ([], 0)⟩ "" 2 50).2.1 (by decide),
   (ListProducts_normalizes_pagination ⟨fun _ _ => .error (.generic "db"),
      fun _ _ => none, fun _ _ _ _ => .ok ([], 0)⟩ "" 2 50).2.2.2.2.1
     (by decide) (by decide),
   (ListProducts_normalizes_pagination ⟨fun _ _ => .error (.generic "db"),
      fun _ _ => none, fun _ _ _ _ => .ok ([], 0)⟩ "" 0 0).1 (by decide),
   (ListProducts_normalizes_pagination ⟨fun _ _ => .error (.generic "db"),
      fun _ _ => none, fun _ _ _ _ => .ok ([], 0)⟩ "" 0 0).2.2.1 (by decide),
   (ListProducts_normalizes_pagination ⟨fun _ _ => .error (.generic "db"),
      fun _ _ => none, fun _ _ _ _ => .ok ([], 0)⟩ "" 0 1000).2.2.2.1 (by decide)⟩

/-! ## Claim C8 — ListSubscriptionPlans does not check product existence -/

/-- Claim C8: ListSubscriptionPlans returns a ValidationError for an empty or
malformed productID; for every syntactically valid productID it issues only
the subscription-storage ListByProductID call (product storage is never
consulted), returns exactly what that call yields, wraps a storage failure as
DatabaseError("list subscription plans", cause), and never returns a
NotFoundError. -/
theorem ListSubscriptionPlans_no_existence_check
    (subRepo : SubscriptionRepo) (productID : String) (pid : UUID) :
    (productID = "" → ListSubscriptionPlans subRepo productID
        = (.error (.validation "productId" "product ID is required"), []))
    ∧ (productID ≠ "" → uuidParse productID = none →
        ListSubscriptionPlans subRepo productID
          = (.error (.validation "productId" "invalid product ID format"), []))
    ∧ (uuidParse productID = some pid →
        (∀ plans, subRepo.listByProductID [] pid = .ok plans →
          ListSubscriptionPlans subRepo productID
            = (.ok plans, [.subListByProductID pid]))
        ∧ (∀ e, subRepo.listByProductID [] pid = .error e →
          ListSubscriptionPlans subRepo productID
            = (.error (.database "list subscription plans" e),
               [.subListByProductID pid]))
        ∧ (∀ c ∈ (ListSubscriptionPlans subRepo productID).snd,
            c = .subListByProductID pid)
        ∧ (∀ r i, (ListSubscriptionPlans subRepo productID).fst
            ≠ .error (.notFound r i))) := by
  refine ⟨?_, ?_, ?_⟩
  · intro h; subst h; rfl
  · intro h1 h2
    simp [ListSubscriptionPlans, parseProductID, h1, h2]
  · intro hp
    have hok : parseProductID productID = .ok pid := (parseProductID_ok_iff _ _).mpr hp
    refine ⟨?_, ?_, ?_, ?_⟩
    · intro plans hl
      simp [ListSubscriptionPlans, hok, hl]
    · intro e hl
      simp [ListSubscriptionPlans, hok, hl]
    · intro c hc
      cases hl : subRepo.listByProductID [] pid with
      | error e => simp [ListSubscriptionPlans, hok, hl] at hc; simp [hc]
      | ok plans => simp [ListSubscriptionPlans, hok, hl] at hc; simp [hc]
    · intro r i
      cases hl : subRepo.listByProductID [] pid with
      | error e => simp [ListSubscriptionPlans, hok, hl]
      | ok plans => simp [ListSubscriptionPlans, hok, hl]

/-- Witness for ListSubscriptionPlans_no_existence_check: a repository with no
plans for the (nonexistent) product returns the empty list, not an error. -/
theorem ListSubscriptionPlans_no_existence_check_witness :
    ListSubscriptionPlans
      ⟨fun _ _ => none, fun _ _ => .error (.generic "subscription plan not found"),
       fun _ _ => none, fun _ _ => .ok []⟩
      "00000000-0000-0000-0000-000000000000"
      = (.ok [], [.subListByProductID uuidNil]) :=
  ((ListSubscriptionPlans_no_existence_check
      ⟨fun _ _ => none, fun _ _ => .error (.generic "subscription plan not found"),
       fun _ _ => none, fun _ _ => .ok []⟩
      "00000000-0000-0000-0000-000000000000" uuidNil).2.2 (by decide)).1 [] rfl

/-! ## Claim C1 — CreateSubscriptionPlan with an unresolvable product -/

/-- Claim C1: for a syntactically valid productID that product storage fails
to resolve, CreateSubscriptionPlan with valid planName/duration/price returns
NotFoundError("Product", productID) — not a DatabaseError — and the
subscription-plan Create operation is never invoked. -/
theorem CreateSubscriptionPlan_missing_product
    (subRepo : SubscriptionRepo) (productRepo : ProductRepo)
    (productID planName : String) (duration : Int) (price : Rat)
    (pid : UUID) (e : GoError)
    (hparse : uuidParse productID = some pid)
    (hvalid : validateSubscriptionInput planName duration price = none)
    (hget : productRepo.getByID [] pid = .error e) :
    (CreateSubscriptionPlan subRepo productRepo productID planName duration price).fst
        = .error (.notFound "Product" productID)
    ∧ IsDatabaseError (.notFound "Product" productID) = false
    ∧ (CreateSubscriptionPlan subRepo productRepo productID planName duration price).snd
        = [StorageCall.productGetByID pid]
    ∧ (∀ plan, StorageCall.subCreate plan ∉
        (CreateSubscriptionPlan subRepo productRepo productID planName duration price).snd) := by
  have hok : parseProductID productID = .ok pid := (parseProductID_ok_iff _ _).mpr hparse
  refine ⟨?_, rfl, ?_, ?_⟩
  · simp [CreateSubscriptionPlan, hvalid, hok, hget]
  · simp [CreateSubscriptionPlan, hvalid, hok, hget]
  · intro plan
    simp [CreateSubscriptionPlan, hvalid, hok, hget]

/-- Witness for CreateSubscriptionPlan_missing_product: concrete repositories
where the product lookup fails with the repository's generic error. -/
theorem CreateSubscriptionPlan_missing_product_witness :
    (CreateSubscriptionPlan
        ⟨fun _ _ => none, fun _ _ => .error (.generic "subscription plan not found"),
         fun _ _ => none, fun _ _ => .ok []⟩
        ⟨fun _ _ => .error (.generic "product not found"), fun _ _ => none,
         fun _ _ _ _ => .ok ([], 0)⟩
        "00000000-0000-0000-0000-000000000000" "Monthly" 30 10).fst
      = .error (.notFound "Product" "00000000-0000-0000-0000-000000000000") :=
  (CreateSubscriptionPlan_missing_product
      ⟨fun _ _ => none, fun _ _ => .error (.generic "subscription plan not found"),
       fun _ _ => none, fun _ _ => .ok []⟩
      ⟨fun _ _ => .error (.generic "product not found"), fun _ _ => none,
       fun _ _ _ _ => .ok ([], 0)⟩
      "00000000-0000-0000-0000-000000000000" "Monthly" 30 10 uuidNil
      (.generic "product not found") (by decide) (by decide) rfl).1

/-! ## Claim C10 — Get folds every storage failure into NotFoundError -/

/-- Every parseProductID failure is a plain ValidationError value. -/
theorem parseProductID_error_shape (id : String) (e : GoError)
    (h : parseProductID id = .error e) : ∃ f m, e = .validation f m := by
  unfold parseProductID at h
  repeat' split at h
  all_goals (try cases h)
  all_goals exact ⟨_, _, rfl⟩

/-- Every parsePlanID failure is a plain ValidationError value. -/
theorem parsePlanID_error_shape (id : String) (e : GoError)
    (h : parsePlanID id = .error e) : ∃ f m, e = .validation f m := by
  unfold parsePlanID at h
  repeat' split at h
  all_goals (try cases h)
  all_goals exact ⟨_, _, rfl⟩

/-- Claim C10: for a well-formed id, GetProduct and GetSubscriptionPlan turn
every storage GetByID failure — connection faults included — into
NotFoundError(resource, id); neither ever returns a DatabaseError, so a
caller cannot distinguish a storage outage from a missing entity. -/
theorem Get_folds_storage_failures_into_not_found
    (prodRepo : ProductRepo) (subRepo : SubscriptionRepo)
    (id : String) (pid : UUID) (e : GoError) :
    (uuidParse id = some pid → prodRepo.getByID [] pid = .error e →
        (GetProduct prodRepo id).fst = .error (.notFound "Product" id))
    ∧ (uuidParse id = some pid → subRepo.getByID [] pid = .error e →
        (GetSubscriptionPlan subRepo id).fst
          = .error (.notFound "SubscriptionPlan" id))
    ∧ (∀ e', (GetProduct prodRepo id).fst = .error e' →
        IsDatabaseError e' = false)
    ∧ (∀ e', (GetSubscriptionPlan subRepo id).fst = .error e' →
        IsDatabaseError e' = false) := by
  refine ⟨?_, ?_, ?_, ?_⟩
  · intro hp hg
    have hok : parseProductID id = .ok pid := (parseProductID_ok_iff _ _).mpr hp
    simp [GetProduct, hok, hg]
  · intro hp hg
    have hok : parsePlanID id = .ok pid := (parsePlanID_ok_iff _ _).mpr hp
    simp [GetSubscriptionPlan, hok, hg]
  · intro e' h
    cases hp : parseProductID id with
    | error pe =>
      simp [GetProduct, hp] at h
      subst h
      obtain ⟨f, m, rfl⟩ := parseProductID_error_shape id pe hp
      rfl
    | ok pid' =>
      cases hg : prodRepo.getByID [] pid' with
      | error ge => simp [GetProduct, hp, hg] at h; subst h; rfl
      | ok prod => simp [GetProduct, hp, hg] at h
  · intro e' h
    cases hp : parsePlanID id with
    | error pe =>
      simp [GetSubscriptionPlan, hp] at h
      subst h
      obtain ⟨f, m, rfl⟩ := parsePlanID_error_shape id pe hp
      rfl
    | ok pid' =>
      cases hg : subRepo.getByID [] pid' with
      | error ge => simp [GetSubscriptionPlan, hp, hg] at h; subst h; rfl
      | ok plan => simp [GetSubscriptionPlan, hp, hg] at h

/-- Witness for Get_folds_storage_failures_into_not_found: a storage layer
failing with a connection-style generic error still surfaces as not-found. -/
theorem Get_folds_storage_failures_into_not_found_witness :
    (GetProduct
        ⟨fun _ _ => .error (.generic "connection failed"), fun _ _ => none,
         fun _ _ _ _ => .ok ([], 0)⟩
        "00000000-0000-0000-0000-000000000000").fst
      = .error (.notFound "Product" "00000000-0000-0000-0000-000000000000") :=
  (Get_folds_storage_failures_into_not_found
      ⟨fun _ _ => .error (.generic "connection failed"), fun _ _ => none,
       fun _ _ _ _ => .ok ([], 0)⟩
      ⟨fun _ _ => none, fun _ _ => .error (.generic "connection failed"),
       fun _ _ => none, fun _ _ => .ok []⟩
      "00000000-0000-0000-0000-000000000000" uuidNil
      (.generic "connection failed")).1 (by decide) rfl

/-! ## Claim C9 — error kinds crossing the boundary from Update -/

/-- Claim C9, counterexample: when Update's final re-fetch fails, the raw
storage error crosses the service boundary unwrapped — it is none of the
three structured kinds. -/
theorem update_reFetch_leaks_raw_storage_error :
    (UpdateProduct flakyProductRepo "00000000-0000-0000-0000-000000000000"
        "Widget" "d" 10 "digital").fst = .error (.generic "connection failed")
    ∧ IsValidationError (.generic "connection failed") = false
    ∧ IsNotFoundError (.generic "connection failed") = false
    ∧ IsDatabaseError (.generic "connection failed") = false := by decide

/-- Claim C9 (amended): every error UpdateProduct or UpdateSubscriptionPlan
returns is a ValidationError, a NotFoundError, or a DatabaseError wrapping
the cause with operation context, except for a failure of the final re-fetch
step, whose raw storage error is returned unwrapped; when the re-fetch
succeeds the caller receives the storage-applied entity. -/
theorem Update_error_kinds
    (prodRepo : ProductRepo) (subRepo : SubscriptionRepo)
    (id productID name description planName productType : String)
    (duration : Int) (price : Rat) (e : GoError) :
    ((UpdateProduct prodRepo id name description price productType).fst
        = .error e →
      IsValidationError e = true ∨ IsNotFoundError e = true
      ∨ IsDatabaseError e = true
      ∨ ∃ pid, uuidParse id = some pid
          ∧ prodRepo.getByID
              [StorageCall.productGetByID pid,
               StorageCall.productUpdate ⟨pid, name, description, price, productType⟩]
              pid = .error e)
    ∧ ((UpdateSubscriptionPlan subRepo prodRepo id productID planName duration
          price).fst = .error e →
      IsValidationError e = true ∨ IsNotFoundError e = true
      ∨ IsDatabaseError e = true
      ∨ ∃ planID prodID, uuidParse id = some planID
          ∧ uuidParse productID = some prodID
          ∧ subRepo.getByID
              [StorageCall.subGetByID planID, StorageCall.productGetByID prodID,
               StorageCall.subUpdate ⟨planID, prodID, planName, duration, price⟩]
              planID = .error e) := by
  constructor
  · intro h
    cases hp : parseProductID id with
    | error pe =>
      simp [UpdateProduct, hp] at h
      subst h
      exact Or.inl (validation_of_parseProductID id pe hp)
    | ok pid =>
      cases hg : prodRepo.getByID [] pid with
      | error ge =>
        simp [UpdateProduct, hp, hg] at h
        subst h
        exact Or.inr (Or.inl rfl)
      | ok prod =>
        cases hv : validateProductInput name price productType with
        | some ve =>
          simp [UpdateProduct, hp, hg, hv] at h
          subst h
          exact Or.inl (validation_of_validateProductInput _ _ _ _ hv)
        | none =>
          cases hu : prodRepo.update [StorageCall.productGetByID pid]
              ⟨pid, name, description, price, productType⟩ with
          | some ue =>
            simp [UpdateProduct, hp, hg, hv, hu] at h
            subst h
            exact Or.inr (Or.inr (Or.inl rfl))
          | none =>
            simp [UpdateProduct, hp, hg, hv, hu] at h
            exact Or.inr (Or.inr (Or.inr
              ⟨pid, (parseProductID_ok_iff _ _).mp hp, h⟩))
  · intro h
    cases hp : parsePlanID id with
    | error pe =>
      simp [UpdateSubscriptionPlan, hp] at h
      subst h
      exact Or.inl (validation_of_parsePlanID id pe hp)
    | ok planID =>
      cases hg : subRepo.getByID [] planID with
      | error ge =>
        simp [UpdateSubscriptionPlan, hp, hg] at h
        subst h
        exact Or.inr (Or.inl rfl)
      | ok plan0 =>
        cases hv : validateSubscriptionInput planName duration price with
        | some ve =>
          simp [UpdateSubscriptionPlan, hp, hg, hv] at h
          subst h
          exact Or.inl (validation_of_validateSubscriptionInput _ _ _ _ hv)
        | none =>
          cases hq : parseProductID productID with
          | error qe =>
            simp [UpdateSubscriptionPlan, hp, hg, hv, hq] at h
            subst h
            exact Or.inl (validation_of_parseProductID productID qe hq)
          | ok prodID =>
            cases hpg : prodRepo.getByID [StorageCall.subGetByID planID] prodID with
            | error pge =>
              simp [UpdateSubscriptionPlan, hp, hg, hv, hq, hpg] at h
              subst h
              exact Or.inr (Or.inl rfl)
            | ok prod =>
              cases hu : subRepo.update
                  [StorageCall.subGetByID planID, StorageCall.productGetByID prodID]
                  ⟨planID, prodID, planName, duration, price⟩ with
              | some ue =>
                simp [UpdateSubscriptionPlan, hp, hg, hv, hq, hpg, hu] at h
                subst h
                exact Or.inr (Or.inr (Or.inl rfl))
              | none =>
                simp [UpdateSubscriptionPlan, hp, hg, hv, hq, hpg, hu] at h
                exact Or.inr (Or.inr (Or.inr
                  ⟨planID, prodID, (parsePlanID_ok_iff _ _).mp hp,
                   (parseProductID_ok_iff _ _).mp hq, h⟩))

/-- Witness for Update_error_kinds at the re-fetch-failure input: the leaked
raw error is indeed the second getByID response. -/
theorem Update_error_kinds_witness :
    IsValidationError (.generic "connection failed") = true
    ∨ IsNotFoundError (.generic "connection failed") = true
    ∨ IsDatabaseError (.generic "connection failed") = true
    ∨ ∃ pid, uuidParse "00000000-0000-0000-0000-000000000000" = some pid
        ∧ flakyProductRepo.getByID
            [StorageCall.productGetByID pid,
             StorageCall.productUpdate ⟨pid, "Widget", "d", 10, "digital"⟩]
            pid = .error (.generic "connection failed") :=
  (Update_error_kinds flakyProductRepo
      ⟨fun _ _ => none, fun _ _ => .error (.generic "subscription plan not found"),
       fun _ _ => none, fun _ _ => .ok []⟩
      "00000000-0000-0000-0000-000000000000" "" "Widget" "d" "Monthly" "digital"
      30 10 (.generic "connection failed")).1 (by decide)
